import Mathlib

/-!
Verification of the sandboxed live-preview engine of
ImageToReactComponentConverter (the `PreviewPane` component that feeds an
iframe a srcdoc shell and drives it over `postMessage`).

The embedding has two halves, both shallow translations of the final
`PreviewPane` source:

* the boundary half: the script running inside the iframe
  (`transpileTsx`, `evalCommonJs`, `renderTsx`, the `message` listener,
  and the one-time `preview-ready` post), modelled as a pure transformer
  on an explicit `BoundaryState`;
* the host half: the `useEffect` in `PreviewPane` (per-`tsxCode` effect
  with its `ready` flag, `preview-ready` listener and 300 ms fallback
  timer), modelled as a transition system `Sys`/`step` over scheduling
  events, with ghost logs of the messages transmitted and observed.

The TypeScript compiler (`ts.transpileModule`), the CommonJS-style
`new Function` evaluation, and React's render pass are external
collaborators of the code under verification; they enter the model as the
abstract stage functions of an `Engine`, each returning `Except` to model
a JavaScript throw carrying a message.
-/

/-- Equality of `Except` results is decidable; used by the concrete
witnesses and counterexamples. -/
instance {A B : Type} [DecidableEq A] [DecidableEq B] : DecidableEq (Except A B) := fun x y =>
  match x, y with
  | Except.error a, Except.error b =>
    if h : a = b then Decidable.isTrue (by rw [h])
    else Decidable.isFalse (by intro hc; cases hc; exact h rfl)
  | Except.error _, Except.ok _ => Decidable.isFalse (by intro hc; cases hc)
  | Except.ok _, Except.error _ => Decidable.isFalse (by intro hc; cases hc)
  | Except.ok a, Except.ok b =>
    if h : a = b then Decidable.isTrue (by rw [h])
    else Decidable.isFalse (by intro hc; cases hc; exact h rfl)

/-- A JavaScript value sitting in a message field: either a string (the
only shape the iframe listener accepts for `tsx`) or anything else. -/
inductive JsField where
  | str (s : String)
  | other
deriving DecidableEq

/-- The data of a message received inside the iframe, after the
`ev.data || {}` defaulting: each field is absent (`none`, JavaScript
`undefined`) or present. -/
structure MsgData where
  type : Option String
  tsx : Option JsField
deriving DecidableEq

/-- `ev.data || {}`: a null/undefined payload becomes an empty object,
whose member reads give `undefined`. -/
def orEmpty (d : Option MsgData) : MsgData :=
  d.getD { type := none, tsx := none }

/-- `typeof data.tsx === 'string'`. -/
def isStr : Option JsField → Bool
  | some (JsField.str _) => true
  | _ => false

/-- An opaque compiled component value; its render behaviour is supplied
by the `Engine`. -/
structure Component where
  id : Nat
deriving DecidableEq

/-- The `module.exports` object produced by `evalCommonJs`, restricted to
the two members `renderTsx` reads; `none` models a falsy member. -/
structure Exports where
  default : Option Component
  GeneratedComponent : Option Component
deriving DecidableEq

/-- The external stages the iframe script calls: the TypeScript
transpiler, the CommonJS-style evaluator (which can also return a falsy
`module.exports`), and React's render pass. `Except.error m` models a
throw whose caught message is `m`. -/
structure Engine where
  transpile : String → Except String String
  evalCommonJs : String → Except String (Option Exports)
  render : Component → Except String String

/-- A message the iframe posts to its parent. The `outcome` shape is the
spec's outbound `RenderOutcome` message; it is declared here so claims
about it can be stated — the source script never constructs it. -/
inductive OutMsg where
  | previewReady
  | outcome (sequence : Nat) (ok : Bool) (phase : Option String) (message : Option String)
deriving DecidableEq

/-- `isOutcome m` holds when `m` is a `RenderOutcome`-shaped message. -/
def isOutcome : OutMsg → Bool
  | OutMsg.outcome _ _ _ _ => true
  | _ => false

/-- The observable state of the iframe document: the `#error` panel
(`none` = hidden), the content currently mounted under `#root`, the
number of `ReactDOM.createRoot(root)` calls performed so far (each call
creates and retains a fresh React root object on the same container), and
the log of messages posted to the parent window, oldest first. -/
structure BoundaryState where
  errorPanel : Option String
  rootHtml : Option String
  rootsCreated : Nat
  outbox : List OutMsg
deriving DecidableEq

/-- `showError(msg)`: fill and show the `#error` panel. -/
def showError (msg : String) (s : BoundaryState) : BoundaryState :=
  { s with errorPanel := some msg }

/-- `clearError()`: empty and hide the `#error` panel. -/
def clearError (s : BoundaryState) : BoundaryState :=
  { s with errorPanel := none }

/-- The message of the `Error` thrown by `renderTsx` when no usable
export is found. -/
def noExportMsg : String :=
  "No default export found. Ensure the component uses \"export default\"."

/-- `(mod && (mod.default || mod.GeneratedComponent)) || null`: the
component `renderTsx` extracts from the evaluated module. -/
def pickComponent (mod : Option Exports) : Option Component :=
  match mod with
  | none => none
  | some m =>
    match m.default with
    | some c => some c
    | none => m.GeneratedComponent

/-- `renderTsx(tsx)`: clear the error panel, transpile, evaluate,
extract the export, create a React root and render — the whole pipeline
inside one `try`/`catch` whose `catch` shows the thrown message. Every
failure path lands in `showError`; nothing escapes uncaught (the model
function is total). `ReactDOM.createRoot(root)` is reached only after a
component was extracted, and also when the subsequent render throws. -/
def renderTsx (eng : Engine) (tsx : String) (s : BoundaryState) : BoundaryState :=
  let s1 := clearError s
  match eng.transpile tsx with
  | Except.error e => showError e s1
  | Except.ok js =>
    match eng.evalCommonJs js with
    | Except.error e => showError e s1
    | Except.ok mod =>
      match pickComponent mod with
      | none => showError noExportMsg s1
      | some comp =>
        let s2 := { s1 with rootsCreated := s1.rootsCreated + 1 }
        match eng.render comp with
        | Except.error e => showError e s2
        | Except.ok html => { s2 with rootHtml := some html }

/-- The end-to-end result of the compile/eval/extract/render pipeline on
one source text: the rendered output, or the message of the first throw
(with the missing-export throw in its place in the cascade). -/
def pipelineResult (eng : Engine) (tsx : String) : Except String String :=
  match eng.transpile tsx with
  | Except.error e => Except.error e
  | Except.ok js =>
    match eng.evalCommonJs js with
    | Except.error e => Except.error e
    | Except.ok mod =>
      match pickComponent mod with
      | none => Except.error noExportMsg
      | some comp => eng.render comp

/-- The error panel content `renderTsx` leaves behind, as a function of
the pipeline alone: the first caught message, or a hidden panel on
success. -/
def panelOf (eng : Engine) (tsx : String) : Option String :=
  match pipelineResult eng tsx with
  | Except.error e => some e
  | Except.ok _ => none

/-- The iframe's `message` listener: only a payload with
`data.type === 'render'` and a string `data.tsx` triggers `renderTsx`;
every other message leaves the document untouched. -/
def onBoundaryMessage (eng : Engine) (data : Option MsgData) (s : BoundaryState) : BoundaryState :=
  let d := orEmpty data
  if d.type = some "render" then
    match d.tsx with
    | some (JsField.str code) => renderTsx eng code s
    | _ => s
  else s

/-- The iframe state right after its script ran: empty root, hidden error
panel, and exactly one `preview-ready` message posted to the parent. -/
def initBoundary : BoundaryState :=
  { errorPanel := none, rootHtml := none, rootsCreated := 0
  , outbox := [OutMsg.previewReady] }

/-- Deliver a list of messages to the iframe listener in order. -/
def processMessages (eng : Engine) (msgs : List (Option MsgData)) (s : BoundaryState) : BoundaryState :=
  msgs.foldl (fun st m => onBoundaryMessage eng m st) s

/-- A well-formed render request payload, as the host's `send()` posts
it: `{ type: 'render', tsx: code }`. -/
def renderData (tsx : String) : Option MsgData :=
  some { type := some "render", tsx := some (JsField.str tsx) }

/-!
Host half: the `useEffect` in `PreviewPane`, deps `[tsxCode]`. Each
source-text change tears the previous effect down (removing its
`message` listener and cancelling its timer) and starts a fresh one with
its own `ready = false` flag and a fresh 300 ms fallback timer, so at
most one effect — for the most recent source — is live at any time. The
model is the joint host/boundary transition system below. The iframe is
unique, so the `ev.source === iframe.contentWindow` check of the host
listener always passes for messages in `queueToHost`.
-/

/-- Joint state of the host effect, the iframe shell and the two message
channels. `sent` and `observed` are ghost logs: every render message the
host ever posted, and every render payload the iframe listener actually
received, oldest first. -/
structure Sys where
  hostCode : String
  hostReady : Bool
  timerPending : Bool
  boundaryUp : Bool
  queueToBoundary : List String
  queueToHost : List Unit
  sent : List String
  observed : List String
deriving DecidableEq

/-- Scheduling events of the joint system: a `tsxCode` prop change
(effect restart), the current effect's 300 ms timer firing, the iframe
script running (listener installed, `preview-ready` posted once), and
in-order delivery of the oldest in-flight message on each channel. -/
inductive Ev where
  | setCode (c : String)
  | timeoutFires
  | boundaryLoads
  | deliverToBoundary
  | deliverToHost
deriving DecidableEq

/-- `send()`: post `{ type: 'render', tsx: hostCode }` to the iframe
(and log it in the ghost `sent`). -/
def hostSend (sys : Sys) : Sys :=
  { sys with
      queueToBoundary := sys.queueToBoundary ++ [sys.hostCode],
      sent := sys.sent ++ [sys.hostCode] }

/-- One scheduling step of the joint system, following the effect body:
a prop change replaces the effect (new `ready = false`, fresh timer);
the timer fires at most once and sends only when `!ready`; the iframe
script installs its listener and posts `preview-ready` exactly once; a
render message delivered before the script ran is lost (no listener); a
delivered `preview-ready` sets `ready = true` and triggers `send()`. -/
def step (sys : Sys) : Ev → Sys
  | Ev.setCode c =>
      { sys with hostCode := c, hostReady := false, timerPending := true }
  | Ev.timeoutFires =>
      if sys.timerPending then
        if sys.hostReady then { sys with timerPending := false }
        else hostSend { sys with timerPending := false }
      else sys
  | Ev.boundaryLoads =>
      if sys.boundaryUp then sys
      else { sys with boundaryUp := true, queueToHost := sys.queueToHost ++ [()] }
  | Ev.deliverToBoundary =>
      match sys.queueToBoundary with
      | [] => sys
      | c :: rest =>
        if sys.boundaryUp then
          { sys with queueToBoundary := rest, observed := sys.observed ++ [c] }
        else { sys with queueToBoundary := rest }
  | Ev.deliverToHost =>
      match sys.queueToHost with
      | [] => sys
      | _ :: rest => hostSend { sys with queueToHost := rest, hostReady := true }

/-- The state right after `PreviewPane` mounts with initial source `c0`:
the first effect is live with a pending timer, the iframe script has not
run yet, and no message is in flight. -/
def initSys (c0 : String) : Sys :=
  { hostCode := c0, hostReady := false, timerPending := true
  , boundaryUp := false, queueToBoundary := [], queueToHost := []
  , sent := [], observed := [] }

/-- Run the joint system from the initial state through a schedule. -/
def run (c0 : String) (evs : List Ev) : Sys :=
  evs.foldl step (initSys c0)

/-- A schedule in which the 300 ms fallback timer never fires before the
considered point. -/
def noTimeout (evs : List Ev) : Prop :=
  ∀ e ∈ evs, e ≠ Ev.timeoutFires

instance (evs : List Ev) : Decidable (noTimeout evs) := by
  unfold noTimeout
  infer_instance

/-- Number of ready-triggered sends the system can still perform: sends
already made, plus `preview-ready` messages in flight, plus one if the
iframe script has not yet run. Constant under every event except the
fallback timer. -/
def readyBudget (sys : Sys) : Nat :=
  sys.sent.length + sys.queueToHost.length + (if sys.boundaryUp then 0 else 1)

/-!
Concrete engine used by the closed-form counterexamples and witnesses.
Its stage behaviours are keyed on the demo source texts: the spec's
scenario B source transpile-fails; `src-noexport` evaluates to a module
with neither usable member; `src-gen` exposes only `GeneratedComponent`;
`src-boom` exposes a default export that throws "boom" during render;
everything else compiles, evaluates and renders cleanly.
-/

/-- Demo component exported as `default` by well-behaved sources. -/
def compOk : Component := { id := 0 }

/-- Demo component whose render pass throws "boom". -/
def compBoom : Component := { id := 1 }

/-- Demo component exported only under the name `GeneratedComponent`. -/
def compGen : Component := { id := 2 }

/-- Second well-behaved demo component. -/
def compOk2 : Component := { id := 3 }

/-- A small concrete `Engine` instantiating the external stages. -/
def engDemo : Engine where
  transpile := fun tsx =>
    if tsx = "export default function(" then Except.error "Unexpected token"
    else Except.ok ("js:" ++ tsx)
  evalCommonJs := fun js =>
    if js = "js:src-noexport" then
      Except.ok (some { default := none, GeneratedComponent := none })
    else if js = "js:src-gen" then
      Except.ok (some { default := none, GeneratedComponent := some compGen })
    else if js = "js:src-boom" then
      Except.ok (some { default := some compBoom, GeneratedComponent := none })
    else if js = "js:src-ok2" then
      Except.ok (some { default := some compOk2, GeneratedComponent := none })
    else
      Except.ok (some { default := some compOk, GeneratedComponent := none })
  render := fun c =>
    if c = compBoom then Except.error "boom"
    else if c = compGen then Except.ok "rendered-gen"
    else if c = compOk2 then Except.ok "rendered-ok2"
    else Except.ok "rendered-ok1"


/-!
Structural lemmas about `renderTsx`, shared by the claim theorems below.
-/

theorem renderTsx_outbox (eng : Engine) (tsx : String) (s : BoundaryState) :
    (renderTsx eng tsx s).outbox = s.outbox := by
  simp only [renderTsx]
  repeat' split
  all_goals rfl

theorem renderTsx_panel (eng : Engine) (tsx : String) (s : BoundaryState) :
    (renderTsx eng tsx s).errorPanel = panelOf eng tsx := by
  simp only [renderTsx, panelOf, pipelineResult]
  repeat' split
  all_goals simp_all [showError, clearError]

theorem renderTsx_transpile_err (eng : Engine) (tsx e : String) (s : BoundaryState)
    (htr : eng.transpile tsx = Except.error e) :
    renderTsx eng tsx s = { s with errorPanel := some e } := by
  simp only [renderTsx, htr]
  rfl

theorem renderTsx_noexport (eng : Engine) (tsx js : String) (mod : Option Exports)
    (s : BoundaryState)
    (htr : eng.transpile tsx = Except.ok js)
    (hev : eng.evalCommonJs js = Except.ok mod)
    (hpc : pickComponent mod = none) :
    renderTsx eng tsx s = { s with errorPanel := some noExportMsg } := by
  simp only [renderTsx, htr, hev, hpc]
  rfl

theorem renderTsx_render_err (eng : Engine) (tsx js e : String)
    (mod : Option Exports) (c : Component) (s : BoundaryState)
    (htr : eng.transpile tsx = Except.ok js)
    (hev : eng.evalCommonJs js = Except.ok mod)
    (hpc : pickComponent mod = some c)
    (hrd : eng.render c = Except.error e) :
    renderTsx eng tsx s =
      { s with errorPanel := some e, rootsCreated := s.rootsCreated + 1 } := by
  simp only [renderTsx, htr, hev, hpc, hrd]
  rfl

theorem renderTsx_ok (eng : Engine) (tsx : String) (s : BoundaryState) (h : String)
    (hok : pipelineResult eng tsx = Except.ok h) :
    renderTsx eng tsx s =
      { s with errorPanel := none, rootHtml := some h,
               rootsCreated := s.rootsCreated + 1 } := by
  simp only [pipelineResult] at hok
  simp only [renderTsx]
  cases htr : eng.transpile tsx with
  | error e => simp only [htr] at hok; cases hok
  | ok js =>
    simp only [htr] at hok ⊢
    cases hev : eng.evalCommonJs js with
    | error e => simp only [hev] at hok; cases hok
    | ok mod =>
      simp only [hev] at hok ⊢
      cases hpc : pickComponent mod with
      | none => simp only [hpc] at hok; cases hok
      | some c =>
        simp only [hpc] at hok ⊢
        cases hrd : eng.render c with
        | error e => simp only [hrd] at hok; cases hok
        | ok html =>
          simp only [hrd] at hok ⊢
          cases hok
          rfl

theorem run_append_one (c0 : String) (evs : List Ev) (e : Ev) :
    run c0 (evs ++ [e]) = step (run c0 evs) e := by
  simp [run, List.foldl_append]

theorem step_sent (sys : Sys) (e : Ev) :
    (step sys e).sent = sys.sent ∨ (step sys e).sent = sys.sent ++ [sys.hostCode] := by
  cases e with
  | setCode c => left; rfl
  | timeoutFires =>
    by_cases ht : sys.timerPending
    · by_cases hr : sys.hostReady
      · left; simp [step, ht, hr]
      · right; simp [step, hostSend, ht, hr]
    · left; simp [step, ht]
  | boundaryLoads =>
    by_cases hb : sys.boundaryUp
    · left; simp [step, hb]
    · left; simp [step, hb]
  | deliverToBoundary =>
    cases hq : sys.queueToBoundary with
    | nil => left; simp [step, hq]
    | cons c rest =>
      by_cases hb : sys.boundaryUp
      · left; simp [step, hq, hb]
      · left; simp [step, hq, hb]
  | deliverToHost =>
    cases hq : sys.queueToHost with
    | nil => left; simp [step, hq]
    | cons u rest => right; simp [step, hq, hostSend]

theorem step_readyBudget (sys : Sys) (e : Ev) (he : e ≠ Ev.timeoutFires) :
    readyBudget (step sys e) = readyBudget sys := by
  cases e with
  | setCode c => rfl
  | timeoutFires => exact absurd rfl he
  | boundaryLoads =>
    by_cases hb : sys.boundaryUp
    · simp [step, hb]
    · simp [step, readyBudget, hb]
      omega
  | deliverToBoundary =>
    cases hq : sys.queueToBoundary with
    | nil => simp [step, hq]
    | cons c rest =>
      by_cases hb : sys.boundaryUp <;> simp [step, hq, hb, readyBudget]
  | deliverToHost =>
    cases hq : sys.queueToHost with
    | nil => simp [step, hq]
    | cons u rest =>
      simp [step, hq, hostSend, readyBudget]
      omega

theorem sent_le_readyBudget (sys : Sys) : sys.sent.length ≤ readyBudget sys := by
  unfold readyBudget
  split <;> omega

theorem foldl_readyBudget (evs : List Ev) (sys : Sys) (h : noTimeout evs) :
    readyBudget (evs.foldl step sys) = readyBudget sys := by
  induction evs generalizing sys with
  | nil => rfl
  | cons e rest ih =>
    have h1 : e ≠ Ev.timeoutFires := h e (List.mem_cons_self e rest)
    have h2 : noTimeout rest := fun x hx => h x (List.mem_cons_of_mem e hx)
    simp only [List.foldl_cons]
    rw [ih _ h2, step_readyBudget sys e h1]

theorem readyBudget_initSys (c0 : String) : readyBudget (initSys c0) = 1 := rfl

/-!
Claim theorems. Each claim of the frozen list is settled against the
model above; counterexamples are closed evaluations at the concrete
`engDemo` engine or at concrete schedules of the joint system.
-/

/-- Claim C1, counterexample: handling the render request for `src-ok1`
emits no message at all — the outbox still holds only the initial
`preview-ready`, so no outcome message tagged with any sequence is
posted, on success or failure. This refutes "for every RenderRequest the
boundary emits exactly one RenderOutcome message back on the channel". -/
theorem c1_counterexample :
    (onBoundaryMessage engDemo (renderData "src-ok1") initBoundary).outbox
        = initBoundary.outbox ∧
    (onBoundaryMessage engDemo (renderData "src-ok1") initBoundary).outbox.all
        (fun m => !(isOutcome m)) = true := by
  decide

/-- Claim C1 (amended): the boundary posts no outcome message for any
request — `renderTsx` leaves the outbox untouched for every engine,
source text and prior state; the only message the script ever posts is
the single `preview-ready` at load. Request results are reported solely
through the boundary-local DOM (error panel and render root). -/
theorem c1_amended (eng : Engine) (tsx : String) (s : BoundaryState) :
    (renderTsx eng tsx s).outbox = s.outbox ∧
    initBoundary.outbox = [OutMsg.previewReady] :=
  ⟨renderTsx_outbox eng tsx s, rfl⟩

/-- Claim C2, counterexample: send S1 = `src-ok1` (mounts successfully),
then S2 = the unterminated source (compile throw). After both are
processed in order, the render root still shows S1's output while the
error panel shows S2's message: the final observed render state does not
correspond to S2 only. There is also no sequence field anywhere by which
a stale outcome could be discarded. -/
theorem c2_counterexample :
    (processMessages engDemo
        [renderData "src-ok1", renderData "export default function("]
        initBoundary).rootHtml = some "rendered-ok1" ∧
    (processMessages engDemo
        [renderData "src-ok1", renderData "export default function("]
        initBoundary).errorPanel = some "Unexpected token" ∧
    pipelineResult engDemo "src-ok1" = Except.ok "rendered-ok1" := by
  decide

/-- Claim C2 (amended): the boundary processes requests synchronously in
arrival order with no sequence matching, and no outcome is ever
forwarded to the caller (the outbox never changes), so nothing stale can
reach it. After S1 then S2, the error panel is exactly what S2 alone
determines, and when S2's pipeline succeeds the root shows S2's output;
only when S2 fails does the root retain S1's last-good content. -/
theorem c2_amended (eng : Engine) (t1 t2 : String) (s s' : BoundaryState) (h : String)
    (hok : pipelineResult eng t2 = Except.ok h) :
    (renderTsx eng t2 s).errorPanel = (renderTsx eng t2 s').errorPanel ∧
    (renderTsx eng t2 (renderTsx eng t1 s)).rootHtml = some h ∧
    (renderTsx eng t2 (renderTsx eng t1 s)).errorPanel = none ∧
    (renderTsx eng t2 (renderTsx eng t1 s)).outbox = s.outbox := by
  refine ⟨?_, ?_, ?_, ?_⟩
  · rw [renderTsx_panel, renderTsx_panel]
  · rw [renderTsx_ok eng t2 _ h hok]
  · rw [renderTsx_ok eng t2 _ h hok]
  · rw [renderTsx_outbox, renderTsx_outbox]

/-- Witness for C2 (amended) at the demo engine: S1 = `src-ok1`,
S2 = `src-ok2`; the final root shows S2's output. -/
theorem c2_witness :
    pipelineResult engDemo "src-ok2" = Except.ok "rendered-ok2" ∧
    (renderTsx engDemo "src-ok2" (renderTsx engDemo "src-ok1" initBoundary)).rootHtml
        = some "rendered-ok2" :=
  ⟨by decide,
   (c2_amended engDemo "src-ok1" "src-ok2" initBoundary initBoundary
      "rendered-ok2" (by decide)).2.1⟩

/-- Claim C3, counterexample: for the spec's unterminated source the
boundary catches the compile throw and shows it in its own error panel,
but emits no outcome message whatsoever — the outbox still holds only
`preview-ready`, so no Failure outcome with a compile phase exists (the
source records no phase anywhere). -/
theorem c3_counterexample :
    (onBoundaryMessage engDemo (renderData "export default function(")
        initBoundary).errorPanel = some "Unexpected token" ∧
    (onBoundaryMessage engDemo (renderData "export default function(")
        initBoundary).outbox = [OutMsg.previewReady] := by
  decide

/-- Claim C3 (amended): a throw during transpilation is caught by
`renderTsx`'s single try/catch (the model function is total, so nothing
escapes uncaught) and its message is displayed exactly once in the
in-boundary error panel; root, root count and outbox are unchanged, and
no phase is recorded and no outcome message is posted. -/
theorem c3_amended (eng : Engine) (tsx e : String) (s : BoundaryState)
    (htr : eng.transpile tsx = Except.error e) :
    renderTsx eng tsx s = { s with errorPanel := some e } :=
  renderTsx_transpile_err eng tsx e s htr

/-- Witness for C3 (amended): the demo engine on the spec's scenario B
source. -/
theorem c3_witness :
    engDemo.transpile "export default function(" = Except.error "Unexpected token" ∧
    renderTsx engDemo "export default function(" initBoundary
      = { initBoundary with errorPanel := some "Unexpected token" } :=
  ⟨by decide,
   c3_amended engDemo "export default function(" "Unexpected token"
      initBoundary (by decide)⟩

/-- Claim C4, counterexample: for a module with no usable export the
displayed message is the source's own throw text, which is not the
claimed "no component export found", and no outcome message (hence no
mount phase) is emitted. -/
theorem c4_counterexample :
    (onBoundaryMessage engDemo (renderData "src-noexport") initBoundary).errorPanel
        = some noExportMsg ∧
    noExportMsg ≠ "no component export found" ∧
    (onBoundaryMessage engDemo (renderData "src-noexport") initBoundary).outbox
        = [OutMsg.previewReady] := by
  decide

/-- Claim C4 (amended): when the evaluated module exposes neither a
truthy `default` nor a truthy `GeneratedComponent` member, `renderTsx`
catches its own thrown `Error` and displays the message `No default
export found. Ensure the component uses "export default".` in the error
panel; no outcome message and no phase exist, and nothing else changes. -/
theorem c4_amended (eng : Engine) (tsx js : String) (mod : Option Exports)
    (s : BoundaryState)
    (htr : eng.transpile tsx = Except.ok js)
    (hev : eng.evalCommonJs js = Except.ok mod)
    (hpc : pickComponent mod = none) :
    renderTsx eng tsx s = { s with errorPanel := some noExportMsg } :=
  renderTsx_noexport eng tsx js mod s htr hev hpc

/-- Witness for C4 (amended): the demo engine on `src-noexport`. -/
theorem c4_witness :
    engDemo.evalCommonJs "js:src-noexport"
        = Except.ok (some { default := none, GeneratedComponent := none }) ∧
    renderTsx engDemo "src-noexport" initBoundary
      = { initBoundary with errorPanel := some noExportMsg } :=
  ⟨by decide,
   c4_amended engDemo "src-noexport" "js:src-noexport"
      (some { default := none, GeneratedComponent := none }) initBoundary
      (by decide) (by decide) (by decide)⟩

/-- Claim C5, counterexample: a component throwing "boom" during the
render pass gets its message displayed in the error panel, but no
Failure outcome message with a runtime phase is emitted — the outbox
still holds only `preview-ready`. -/
theorem c5_counterexample :
    (onBoundaryMessage engDemo (renderData "src-boom") initBoundary).errorPanel
        = some "boom" ∧
    (onBoundaryMessage engDemo (renderData "src-boom") initBoundary).outbox
        = [OutMsg.previewReady] := by
  decide

/-- Claim C5 (amended): a throw during the framework's render pass is
caught and its message ("boom" in scenario D) displayed in the error
panel; the previously mounted content is retained and the outbox is
unchanged (no outcome message, no phase), though a fresh React root
object was already created for the failed cycle. -/
theorem c5_amended (eng : Engine) (tsx js e : String) (mod : Option Exports)
    (c : Component) (s : BoundaryState)
    (htr : eng.transpile tsx = Except.ok js)
    (hev : eng.evalCommonJs js = Except.ok mod)
    (hpc : pickComponent mod = some c)
    (hrd : eng.render c = Except.error e) :
    renderTsx eng tsx s
      = { s with errorPanel := some e, rootsCreated := s.rootsCreated + 1 } :=
  renderTsx_render_err eng tsx js e mod c s htr hev hpc hrd

/-- Witness for C5 (amended): the demo engine on `src-boom`, whose
component throws "boom" during render. -/
theorem c5_witness :
    engDemo.render compBoom = Except.error "boom" ∧
    renderTsx engDemo "src-boom" initBoundary
      = { initBoundary with
            errorPanel := some "boom",
            rootsCreated := initBoundary.rootsCreated + 1 } :=
  ⟨by decide,
   c5_amended engDemo "src-boom" "js:src-boom" "boom"
      (some { default := some compBoom, GeneratedComponent := none }) compBoom
      initBoundary (by decide) (by decide) (by decide) (by decide)⟩

/-- Claim C6, counterexample: let the initial effect for source "A" hit
its 300 ms fallback before the iframe loads — "A" is transmitted while
the host is not ready and the boundary not up — then change the source
to "B". Once the iframe loads, the queued "A" is delivered and observed,
then "B": the boundary observes the superseded pre-ready version "A",
refuting "intermediate source versions sent before readiness are never
observed by the boundary". -/
theorem c6_counterexample :
    (run "A" [Ev.timeoutFires]).hostReady = false ∧
    (run "A" [Ev.timeoutFires]).boundaryUp = false ∧
    (run "A" [Ev.timeoutFires]).sent = ["A"] ∧
    (run "A" [Ev.timeoutFires, Ev.boundaryLoads, Ev.setCode "B",
        Ev.deliverToBoundary, Ev.deliverToHost, Ev.deliverToBoundary]).observed
      = ["A", "B"] := by
  decide

/-- Claim C6 (amended): at most one effect — for the most recent source —
is live at a time, and every transmission, whether triggered by the
ready signal or by the 300 ms fallback, carries the host's current
source: one step extends the transmission log by at most the current
`hostCode`. When no fallback timer fires, at most one request is ever
transmitted (the one sent on handling the ready signal), so no
intermediate version reaches the boundary; intermediate versions can be
transmitted only by the fallback timer firing while they were current. -/
theorem c6_amended (c0 : String) (evs : List Ev) (e : Ev)
    (hnt : noTimeout evs) :
    ((run c0 (evs ++ [e])).sent = (run c0 evs).sent ∨
     (run c0 (evs ++ [e])).sent = (run c0 evs).sent ++ [(run c0 evs).hostCode]) ∧
    (run c0 evs).sent.length ≤ 1 := by
  constructor
  · rw [run_append_one]
    exact step_sent (run c0 evs) e
  · have h2 := sent_le_readyBudget (run c0 evs)
    have h1 : readyBudget (run c0 evs) = 1 := by
      rw [run, foldl_readyBudget evs (initSys c0) hnt]
      rfl
    rw [h1] at h2
    exact h2

/-- Witness for C6 (amended): the no-timeout schedule in which the
source changes once and then the ready signal is delivered. -/
theorem c6_witness :
    noTimeout [Ev.setCode "B", Ev.boundaryLoads] ∧
    ((run "A" ([Ev.setCode "B", Ev.boundaryLoads] ++ [Ev.deliverToHost])).sent
        = (run "A" [Ev.setCode "B", Ev.boundaryLoads]).sent ∨
     (run "A" ([Ev.setCode "B", Ev.boundaryLoads] ++ [Ev.deliverToHost])).sent
        = (run "A" [Ev.setCode "B", Ev.boundaryLoads]).sent
            ++ [(run "A" [Ev.setCode "B", Ev.boundaryLoads]).hostCode]) ∧
    (run "A" [Ev.setCode "B", Ev.boundaryLoads]).sent.length ≤ 1 :=
  ⟨by decide,
   (c6_amended "A" [Ev.setCode "B", Ev.boundaryLoads] Ev.deliverToHost (by decide)).1,
   (c6_amended "A" [Ev.setCode "B", Ev.boundaryLoads] Ev.deliverToHost (by decide)).2⟩

/-- Claim C7: the code violates the single-reusable-root invariant.
Processing two successful render requests reaches
`ReactDOM.createRoot(root)` twice — one fresh React root object is
created (and retained by React) per cycle on the same container, so the
set of retained roots grows with every request instead of one root being
reused across mounts. -/
theorem c7_roots_grow :
    (processMessages engDemo [renderData "src-ok1"] initBoundary).rootsCreated = 1 ∧
    (processMessages engDemo [renderData "src-ok1", renderData "src-ok2"]
        initBoundary).rootsCreated = 2 := by
  decide

/-- Claim C8: after any failure the engine state is not corrupted: from
an arbitrary prior state, a failing request displays its message, and
the very next request whose pipeline succeeds mounts its output and
clears the previously displayed error — `renderTsx` clears the panel
first and the success path never shows it again. -/
theorem c8_recovery (eng : Engine) (t0 t e0 h : String) (s : BoundaryState)
    (hfail : pipelineResult eng t0 = Except.error e0)
    (hok : pipelineResult eng t = Except.ok h) :
    (renderTsx eng t0 s).errorPanel = some e0 ∧
    (renderTsx eng t (renderTsx eng t0 s)).errorPanel = none ∧
    (renderTsx eng t (renderTsx eng t0 s)).rootHtml = some h := by
  refine ⟨?_, ?_, ?_⟩
  · rw [renderTsx_panel]
    unfold panelOf
    rw [hfail]
  · rw [renderTsx_ok eng t _ h hok]
  · rw [renderTsx_ok eng t _ h hok]

/-- Witness for C8: the demo engine, failing on the unterminated source
and recovering on `src-ok1`. -/
theorem c8_witness :
    pipelineResult engDemo "export default function(" = Except.error "Unexpected token" ∧
    pipelineResult engDemo "src-ok1" = Except.ok "rendered-ok1" ∧
    (renderTsx engDemo "src-ok1"
        (renderTsx engDemo "export default function(" initBoundary)).rootHtml
      = some "rendered-ok1" :=
  ⟨by decide, by decide,
   (c8_recovery engDemo "export default function(" "src-ok1" "Unexpected token"
      "rendered-ok1" initBoundary (by decide) (by decide)).2.2⟩

/-- Claim C9: a module whose `default` member is falsy but whose
`GeneratedComponent` member is truthy is mounted through the
`mod.default || mod.GeneratedComponent` fallback: the pipeline succeeds,
the fallback component's output is mounted, the error panel stays
hidden, and no missing-export failure is raised. -/
theorem c9_generated_fallback (eng : Engine) (tsx js h : String) (c : Component)
    (s : BoundaryState)
    (htr : eng.transpile tsx = Except.ok js)
    (hev : eng.evalCommonJs js
      = Except.ok (some { default := none, GeneratedComponent := some c }))
    (hrd : eng.render c = Except.ok h) :
    renderTsx eng tsx s
      = { s with errorPanel := none, rootHtml := some h,
                 rootsCreated := s.rootsCreated + 1 } := by
  apply renderTsx_ok
  simp only [pipelineResult, htr, hev, pickComponent]
  exact hrd

/-- Witness for C9: the demo engine on `src-gen`, which exports only
`GeneratedComponent`. -/
theorem c9_witness :
    engDemo.evalCommonJs "js:src-gen"
        = Except.ok (some { default := none, GeneratedComponent := some compGen }) ∧
    renderTsx engDemo "src-gen" initBoundary
      = { initBoundary with
            errorPanel := none,
            rootHtml := some "rendered-gen",
            rootsCreated := initBoundary.rootsCreated + 1 } :=
  ⟨by decide,
   c9_generated_fallback engDemo "src-gen" "js:src-gen" "rendered-gen" compGen
      initBoundary (by decide) (by decide) (by decide)⟩

/-- Claim C10: the iframe listener ignores any message whose `type`
member is not the string "render" or whose `tsx` member is not a string:
the boundary state — error panel, root, root count, outbox — is returned
unchanged, so nothing is compiled or rendered and no message is posted. -/
theorem c10_guard (eng : Engine) (data : Option MsgData) (s : BoundaryState)
    (hg : (orEmpty data).type ≠ some "render" ∨ isStr (orEmpty data).tsx = false) :
    onBoundaryMessage eng data s = s := by
  simp only [onBoundaryMessage]
  rcases hg with hg | hg
  · simp [hg]
  · by_cases ht : (orEmpty data).type = some "render"
    · rw [if_pos ht]
      cases htsx : (orEmpty data).tsx with
      | none => rfl
      | some f =>
        cases f with
        | str c => rw [htsx] at hg; simp [isStr] at hg
        | other => rfl
    · rw [if_neg ht]

/-- Witness for C10: a message of type "hello" with no `tsx` member
leaves the freshly loaded boundary untouched. -/
theorem c10_witness :
    ((orEmpty (some { type := some "hello", tsx := none })).type ≠ some "render" ∨
      isStr (orEmpty (some { type := some "hello", tsx := none })).tsx = false) ∧
    onBoundaryMessage engDemo (some { type := some "hello", tsx := none }) initBoundary
      = initBoundary :=
  ⟨by decide,
   c10_guard engDemo (some { type := some "hello", tsx := none }) initBoundary
      (by decide)⟩
